import Mathlib

/-!
Shallow embedding of the FinTwin deterministic financial-analysis engine.

The definitions below mirror, function by function, the Python source:
* `FinTwinApp._calculate_health_score` (app.py)
* `FinTwinApp._calculate_strengths_weaknesses` (app.py)
* `FinTwinApp.show_investment_calculator` (app.py, compounding block)
* `FinTwinApp.show_debt_repayment_planner` (app.py, balanced schedule loop)
* `FinTwinApp.import_financial_data` (app.py)
* `FinancialSimulator._generate_fallback_analysis` (financial_simulator.py)
* `DataProcessor.generate_financial_analysis` (data_processor.py, top categories)

Monetary amounts are embedded as rationals; the Python float division by
zero (a `ZeroDivisionError`) is embedded as `Option.none`; the literal
`float('inf')` sentinel is embedded as `⊤ : WithTop ℚ`.
-/

namespace FinTwin

/-- A financial snapshot: income, savings, debt and the ordered mapping
from period key to the ordered mapping from category to amount, exactly the
shape of `st.session_state.financial_data` read by the engine. -/
structure Snapshot where
  income : ℚ
  savings : ℚ
  debt : ℚ
  expenses : List (String × List (String × ℚ))
deriving DecidableEq

/-- Sum of the category amounts of one period, `sum(month_data.values())`. -/
def periodTotal (p : List (String × ℚ)) : ℚ :=
  (p.map Prod.snd).sum

/-- Average monthly expenses: `0` when there are no periods, otherwise the
sum of each period total divided by the number of periods. -/
def avgExpenses (s : Snapshot) : ℚ :=
  if s.expenses.isEmpty then 0
  else ((s.expenses.map fun me => periodTotal me.2).sum) / s.expenses.length

/-- Savings rate, `(income - avg) / income if income > 0 else 0`. -/
def savingsRate (s : Snapshot) : ℚ :=
  if 0 < s.income then (s.income - avgExpenses s) / s.income else 0

/-- Debt-to-income as computed by the Health Scorer and the Classifier in
`app.py`: `debt / (income * 12) if income > 0 else 0`. -/
def debtToIncome (s : Snapshot) : ℚ :=
  if 0 < s.income then s.debt / (s.income * 12) else 0

/-- Emergency-fund months, `savings / avg if avg > 0 else 0`. -/
def emergencyFundMonths (s : Snapshot) : ℚ :=
  if 0 < avgExpenses s then s.savings / avgExpenses s else 0

/-- Expense-to-income, `avg / income if income > 0 else 1`. -/
def expenseToIncome (s : Snapshot) : ℚ :=
  if 0 < s.income then avgExpenses s / s.income else 1

/-- Bucketed points for the savings-rate factor (weight 30). -/
def savingsRatePoints (r : ℚ) : ℚ :=
  if r ≥ 0.2 then 30
  else if r ≥ 0.15 then 25
  else if r ≥ 0.1 then 20
  else if r ≥ 0.05 then 15
  else 10

/-- Bucketed points for the emergency-fund factor (weight 25). -/
def emergencyFundPoints (m : ℚ) : ℚ :=
  if m ≥ 6 then 25
  else if m ≥ 3 then 20
  else if m ≥ 1 then 15
  else 10

/-- Bucketed points for the debt-to-income factor (weight 25). -/
def debtToIncomePoints (d : ℚ) : ℚ :=
  if d < 0.2 then 25
  else if d < 0.3 then 20
  else if d < 0.4 then 15
  else if d < 0.5 then 10
  else 5

/-- Bucketed points for the expense-to-income factor (weight 20). -/
def expensePoints (e : ℚ) : ℚ :=
  if e < 0.5 then 20
  else if e < 0.7 then 15
  else if e < 0.8 then 10
  else 5

/-- Health score of a snapshot, mirroring `_calculate_health_score`: the
four bucketed factor points are accumulated into `score`, the weights into
`total_weight = 30 + 25 + 25 + 20`, and the final score is
`(score / total_weight) * 100` clamped to `[0, 100]` through
`min(100, max(0, final_score))`. -/
def healthScore (s : Snapshot) : ℚ :=
  let savings_rate := savingsRate s
  let debt_to_income := debtToIncome s
  let emergency_fund_months := emergencyFundMonths s
  let expense_r := expenseToIncome s
  let score : ℚ :=
    (if savings_rate ≥ 0.2 then (30 : ℚ)
     else if savings_rate ≥ 0.15 then 25
     else if savings_rate ≥ 0.1 then 20
     else if savings_rate ≥ 0.05 then 15
     else 10)
    + (if emergency_fund_months ≥ 6 then (25 : ℚ)
       else if emergency_fund_months ≥ 3 then 20
       else if emergency_fund_months ≥ 1 then 15
       else 10)
    + (if debt_to_income < 0.2 then (25 : ℚ)
       else if debt_to_income < 0.3 then 20
       else if debt_to_income < 0.4 then 15
       else if debt_to_income < 0.5 then 10
       else 5)
    + (if expense_r < 0.5 then (20 : ℚ)
       else if expense_r < 0.7 then 15
       else if expense_r < 0.8 then 10
       else 5)
  let total_weight : ℚ := 30 + 25 + 25 + 20
  let final_score := score / total_weight * 100
  min 100 (max 0 final_score)

/-- Health score as a function of the four already-computed factor values,
used to state monotonicity of the scorer in each factor separately. -/
def healthFromFactors (sr ef dti er : ℚ) : ℚ :=
  min 100 (max 0
    ((savingsRatePoints sr + emergencyFundPoints ef
      + debtToIncomePoints dti + expensePoints er) / 100 * 100))

lemma healthScore_eq (s : Snapshot) :
    healthScore s = healthFromFactors (savingsRate s) (emergencyFundMonths s)
      (debtToIncome s) (expenseToIncome s) := by
  simp only [healthScore, healthFromFactors, savingsRatePoints, emergencyFundPoints,
    debtToIncomePoints, expensePoints]
  norm_num

lemma savingsRatePoints_bounds (r : ℚ) :
    10 ≤ savingsRatePoints r ∧ savingsRatePoints r ≤ 30 := by
  unfold savingsRatePoints; split_ifs <;> norm_num

lemma emergencyFundPoints_bounds (m : ℚ) :
    10 ≤ emergencyFundPoints m ∧ emergencyFundPoints m ≤ 25 := by
  unfold emergencyFundPoints; split_ifs <;> norm_num

lemma debtToIncomePoints_bounds (d : ℚ) :
    5 ≤ debtToIncomePoints d ∧ debtToIncomePoints d ≤ 25 := by
  unfold debtToIncomePoints; split_ifs <;> norm_num

lemma expensePoints_bounds (e : ℚ) :
    5 ≤ expensePoints e ∧ expensePoints e ≤ 20 := by
  unfold expensePoints; split_ifs <;> norm_num

lemma savingsRatePoints_mono {a b : ℚ} (h : a ≤ b) :
    savingsRatePoints a ≤ savingsRatePoints b := by
  unfold savingsRatePoints
  split_ifs <;> linarith

lemma emergencyFundPoints_mono {a b : ℚ} (h : a ≤ b) :
    emergencyFundPoints a ≤ emergencyFundPoints b := by
  unfold emergencyFundPoints
  split_ifs <;> linarith

lemma debtToIncomePoints_anti {a b : ℚ} (h : a ≤ b) :
    debtToIncomePoints b ≤ debtToIncomePoints a := by
  unfold debtToIncomePoints
  split_ifs <;> linarith

lemma expensePoints_anti {a b : ℚ} (h : a ≤ b) :
    expensePoints b ≤ expensePoints a := by
  unfold expensePoints
  split_ifs <;> linarith

lemma healthFromFactors_le_of_le {x y : ℚ} (h : x ≤ y) :
    min 100 (max 0 (x / 100 * 100)) ≤ min 100 (max 0 (y / 100 * 100)) := by
  have hx : x / 100 * 100 = x := by field_simp
  have hy : y / 100 * 100 = y := by field_simp
  rw [hx, hy]
  exact min_le_min le_rfl (max_le_max le_rfl h)

lemma healthFromFactors_nonneg (sr ef dti er : ℚ) :
    0 ≤ healthFromFactors sr ef dti er :=
  le_min (by norm_num) (le_max_left 0 _)

lemma healthFromFactors_le_100 (sr ef dti er : ℚ) :
    healthFromFactors sr ef dti er ≤ 100 :=
  min_le_left 100 _

/-- C5: for every snapshot the health score equals the sum of the four
independently bucketed factor points (savings rate up to 30, emergency-fund
months up to 25, debt-to-income up to 25, expense-to-income up to 20),
divided by 100, multiplied by 100, and clamped to the interval [0, 100]. -/
theorem C5_health_score_formula (s : Snapshot) :
    healthScore s =
      min 100 (max 0
        ((savingsRatePoints (savingsRate s) + emergencyFundPoints (emergencyFundMonths s)
          + debtToIncomePoints (debtToIncome s) + expensePoints (expenseToIncome s))
          / 100 * 100)) :=
  healthScore_eq s

/-- C6: holding the other three factors fixed, the health score is
monotonically non-decreasing in the savings rate and in the emergency-fund
months, monotonically non-increasing in debt-to-income and in
expense-to-income, and it always lies in [0, 100]; the snapshot-level score
is exactly this four-factor function applied to the snapshot ratios. -/
theorem C6_health_score_monotone :
    (∀ a b ef dti er : ℚ, a ≤ b →
      healthFromFactors a ef dti er ≤ healthFromFactors b ef dti er) ∧
    (∀ sr a b dti er : ℚ, a ≤ b →
      healthFromFactors sr a dti er ≤ healthFromFactors sr b dti er) ∧
    (∀ sr ef a b er : ℚ, a ≤ b →
      healthFromFactors sr ef b er ≤ healthFromFactors sr ef a er) ∧
    (∀ sr ef dti a b : ℚ, a ≤ b →
      healthFromFactors sr ef dti b ≤ healthFromFactors sr ef dti a) ∧
    (∀ s : Snapshot, healthScore s = healthFromFactors (savingsRate s)
      (emergencyFundMonths s) (debtToIncome s) (expenseToIncome s)) ∧
    (∀ sr ef dti er : ℚ,
      0 ≤ healthFromFactors sr ef dti er ∧ healthFromFactors sr ef dti er ≤ 100) := by
  refine ⟨?_, ?_, ?_, ?_, healthScore_eq, ?_⟩
  · intro a b ef dti er h
    exact healthFromFactors_le_of_le (by linarith [savingsRatePoints_mono h])
  · intro sr a b dti er h
    exact healthFromFactors_le_of_le (by linarith [emergencyFundPoints_mono h])
  · intro sr ef a b er h
    exact healthFromFactors_le_of_le (by linarith [debtToIncomePoints_anti h])
  · intro sr ef dti a b h
    exact healthFromFactors_le_of_le (by linarith [expensePoints_anti h])
  · intro sr ef dti er
    exact ⟨healthFromFactors_nonneg sr ef dti er, healthFromFactors_le_100 sr ef dti er⟩

/-- Witness for C6: instantiates the savings-rate monotonicity conjunct at
the concrete factor values (0.1 versus 0.2, the others fixed). -/
theorem C6_witness :
    healthFromFactors 0.1 2 0.25 0.6 ≤ healthFromFactors 0.2 2 0.25 0.6 :=
  C6_health_score_monotone.1 0.1 0.2 2 0.25 0.6 (by norm_num)

/-- C10: for every snapshot the health score is at least 30, because each
bucketed factor has a strictly positive floor (10, 10, 5 and 5 points). -/
theorem C10_health_score_floor (s : Snapshot) : 30 ≤ healthScore s := by
  rw [healthScore_eq]
  unfold healthFromFactors
  have h1 := savingsRatePoints_bounds (savingsRate s)
  have h2 := emergencyFundPoints_bounds (emergencyFundMonths s)
  have h3 := debtToIncomePoints_bounds (debtToIncome s)
  have h4 := expensePoints_bounds (expenseToIncome s)
  set x : ℚ := savingsRatePoints (savingsRate s) + emergencyFundPoints (emergencyFundMonths s)
    + debtToIncomePoints (debtToIncome s) + expensePoints (expenseToIncome s) with hx
  have hxeq : x / 100 * 100 = x := by field_simp
  rw [hxeq]
  have hge : (30 : ℚ) ≤ x := by
    rw [hx]; linarith [h1.1, h2.1, h3.1, h4.1]
  have hle : x ≤ 100 := by
    rw [hx]; linarith [h1.2, h2.2, h3.2, h4.2]
  rw [max_eq_right (by linarith : (0 : ℚ) ≤ x)]
  exact le_min (by norm_num) hge

/-- Strength tags of `_calculate_strengths_weaknesses`, appended in source
order: savings rate, emergency fund, debt-to-income, positive savings. -/
def calcStrengths (s : Snapshot) : List String :=
  (if savingsRate s ≥ 0.2 then ["Excellent savings rate (≥20%)"]
   else if savingsRate s ≥ 0.15 then ["Good savings rate (≥15%)"] else [])
  ++ (if emergencyFundMonths s ≥ 6 then ["Strong emergency fund (≥6 months)"]
      else if emergencyFundMonths s ≥ 3 then ["Adequate emergency fund (≥3 months)"] else [])
  ++ (if debtToIncome s < 0.2 then ["Low debt-to-income ratio (<20%)"]
      else if debtToIncome s < 0.3 then ["Healthy debt-to-income ratio (<30%)"] else [])
  ++ (if 0 < s.savings then ["Positive savings balance"] else [])

/-- Weakness tags of `_calculate_strengths_weaknesses`, appended in source
order. -/
def calcWeaknesses (s : Snapshot) : List String :=
  (if savingsRate s < 0.1 then ["Low savings rate (<10%)"] else [])
  ++ (if emergencyFundMonths s < 3 then ["Insufficient emergency fund (<3 months)"] else [])
  ++ (if debtToIncome s > 0.4 then ["High debt-to-income ratio (>40%)"] else [])
  ++ (if avgExpenses s > s.income * 0.8 then ["High expense-to-income ratio (>80%)"] else [])

/-- Full result of `_calculate_strengths_weaknesses`: the rule-based tags
followed by the strengths and weaknesses found in the given analysis. -/
def calcStrengthsWeaknesses (s : Snapshot) (aiStrengths aiWeaknesses : List String) :
    List String × List String :=
  (calcStrengths s ++ aiStrengths, calcWeaknesses s ++ aiWeaknesses)

/-- Fields of the fallback scenario analysis that the claims refer to,
from the record built by `_generate_fallback_analysis`. -/
structure FallbackAnalysis where
  monthly_surplus : ℚ
  asset_to_savings : WithTop ℚ
  debt_to_income : WithTop ℚ
  risk_level : String
  payment_recommendation : String
  recommended_action : String
deriving DecidableEq

/-- Deterministic fallback of the scenario simulator
(`_generate_fallback_analysis`): metric computations with `float('inf')`
sentinels embedded as `⊤`, the three risk-tolerance tiers, and the
payment/action recommendations compared against the tier threshold with
strict `<` for the payment and strict `>` for the action. -/
def generateFallbackAnalysis (s : Snapshot) (assetCost : ℚ) (risk : ℕ) :
    FallbackAnalysis :=
  let avg := avgExpenses s
  let monthly_surplus := s.income - avg
  let asset_to_savings : WithTop ℚ :=
    if 0 < s.savings then ((assetCost / s.savings : ℚ) : WithTop ℚ) else ⊤
  let debt_to_income : WithTop ℚ :=
    if 0 < s.income then ((s.debt / s.income : ℚ) : WithTop ℚ) else ⊤
  let risk_level := if 8 ≤ risk then "High" else if 5 ≤ risk then "Medium" else "Low"
  let payment_recommendation :=
    if 8 ≤ risk then
      (if asset_to_savings < ((0.7 : ℚ) : WithTop ℚ) then "Cash" else "Installments")
    else if 5 ≤ risk then
      (if asset_to_savings < ((0.5 : ℚ) : WithTop ℚ) then "Cash" else "Installments")
    else
      (if asset_to_savings < ((0.3 : ℚ) : WithTop ℚ) then "Cash" else "Installments")
  let recommended_action :=
    if 8 ≤ risk then
      (if ((0.7 : ℚ) : WithTop ℚ) < asset_to_savings then "Consider saving more before purchase"
       else "Proceed with purchase if needed")
    else if 5 ≤ risk then
      (if ((0.5 : ℚ) : WithTop ℚ) < asset_to_savings then "Consider saving more before purchase"
       else "Proceed with purchase if needed")
    else
      (if ((0.3 : ℚ) : WithTop ℚ) < asset_to_savings then "Consider saving more before purchase"
       else "Proceed with purchase if needed")
  ⟨monthly_surplus, asset_to_savings, debt_to_income, risk_level,
    payment_recommendation, recommended_action⟩

/-- Tier threshold of the fallback recommendation rules: 0.7 for risk
tolerance at least 8, 0.5 for at least 5, 0.3 otherwise. -/
def riskThreshold (risk : ℕ) : ℚ :=
  if 8 ≤ risk then 0.7 else if 5 ≤ risk then 0.5 else 0.3

lemma fallback_payment_eq (s : Snapshot) (cost : ℚ) (risk : ℕ) :
    (generateFallbackAnalysis s cost risk).payment_recommendation =
      if (generateFallbackAnalysis s cost risk).asset_to_savings
          < ((riskThreshold risk : ℚ) : WithTop ℚ) then "Cash" else "Installments" := by
  simp only [generateFallbackAnalysis, riskThreshold]
  by_cases h8 : 8 ≤ risk
  · simp [h8]
  · by_cases h5 : 5 ≤ risk <;> simp [h8, h5]

lemma fallback_action_eq (s : Snapshot) (cost : ℚ) (risk : ℕ) :
    (generateFallbackAnalysis s cost risk).recommended_action =
      if ((riskThreshold risk : ℚ) : WithTop ℚ)
          < (generateFallbackAnalysis s cost risk).asset_to_savings then
        "Consider saving more before purchase"
      else "Proceed with purchase if needed" := by
  simp only [generateFallbackAnalysis, riskThreshold]
  by_cases h8 : 8 ≤ risk
  · simp [h8]
  · by_cases h5 : 5 ≤ risk <;> simp [h8, h5]

/-- Counterexample to C1: at the snapshot with monthly income 0, debt 5000,
savings 100 and one expense month of 100, the Health Scorer and Classifier
debt-to-income value is the sentinel 0, which scores the best debt bucket
(25 points) and emits the low-debt strength tag, not a maximal-risk flag. -/
theorem C1_counterexample :
    debtToIncome ⟨0, 100, 5000, [("2024-January", [("Food", 100)])]⟩ = 0 ∧
    debtToIncomePoints
      (debtToIncome ⟨0, 100, 5000, [("2024-January", [("Food", 100)])]⟩) = 25 ∧
    "Low debt-to-income ratio (<20%)" ∈
      calcStrengths ⟨0, 100, 5000, [("2024-January", [("Food", 100)])]⟩ := by
  refine ⟨by norm_num [debtToIncome], by norm_num [debtToIncome, debtToIncomePoints], ?_⟩
  norm_num [calcStrengths, debtToIncome, List.mem_append]

/-- Amended C1: for every snapshot with monthly income 0, the Health Scorer
and the Classifier use the sentinel 0 for debt-to-income, so the scorer
awards the best debt bucket (25 points) and the classifier emits the
"Low debt-to-income ratio" strength; only the scenario-simulator fallback
uses the infinite (maximal-risk) sentinel. -/
theorem C1_amended (s : Snapshot) (h : s.income = 0) :
    debtToIncome s = 0 ∧
    debtToIncomePoints (debtToIncome s) = 25 ∧
    "Low debt-to-income ratio (<20%)" ∈ calcStrengths s ∧
    ∀ cost risk, (generateFallbackAnalysis s cost risk).debt_to_income = ⊤ := by
  have hdti : debtToIncome s = 0 := by simp [debtToIncome, h]
  refine ⟨hdti, by norm_num [hdti, debtToIncomePoints], ?_, ?_⟩
  · norm_num [calcStrengths, hdti, List.mem_append]
  · intro cost risk
    simp [generateFallbackAnalysis, h]

/-- Witness for C1_amended at a concrete zero-income snapshot. -/
theorem C1_amended_witness :
    debtToIncome ⟨0, 200, 9000, [("2024-May", [("Rent", 50)])]⟩ = 0 ∧
    debtToIncomePoints (debtToIncome ⟨0, 200, 9000, [("2024-May", [("Rent", 50)])]⟩) = 25 ∧
    "Low debt-to-income ratio (<20%)" ∈
      calcStrengths ⟨0, 200, 9000, [("2024-May", [("Rent", 50)])]⟩ ∧
    ∀ cost risk,
      (generateFallbackAnalysis ⟨0, 200, 9000, [("2024-May", [("Rent", 50)])]⟩
        cost risk).debt_to_income = ⊤ :=
  C1_amended ⟨0, 200, 9000, [("2024-May", [("Rent", 50)])]⟩ rfl

/-- Counterexample to C3: with savings 10000, asset cost 7000 and risk
tolerance 9 the asset-to-savings value equals the tier threshold 0.7
exactly, and the fallback pairs payment "Installments" with the action
"Proceed with purchase if needed" — the two fields mix at the boundary. -/
theorem C3_counterexample :
    (generateFallbackAnalysis ⟨5000, 10000, 0, [("2024-January", [("Housing", 3000)])]⟩
      7000 9).asset_to_savings = ((riskThreshold 9 : ℚ) : WithTop ℚ) ∧
    (generateFallbackAnalysis ⟨5000, 10000, 0, [("2024-January", [("Housing", 3000)])]⟩
      7000 9).payment_recommendation = "Installments" ∧
    (generateFallbackAnalysis ⟨5000, 10000, 0, [("2024-January", [("Housing", 3000)])]⟩
      7000 9).recommended_action = "Proceed with purchase if needed" := by
  norm_num [generateFallbackAnalysis, avgExpenses, periodTotal, riskThreshold]

/-- Amended C3: below the tier threshold the fallback recommends Cash with
"proceed if needed"; strictly above it recommends Installments with "save
more before purchase"; exactly at the threshold the fields mix, giving
Installments with "proceed if needed". -/
theorem C3_amended (s : Snapshot) (cost : ℚ) (risk : ℕ) :
    ((generateFallbackAnalysis s cost risk).asset_to_savings
        < ((riskThreshold risk : ℚ) : WithTop ℚ) →
      (generateFallbackAnalysis s cost risk).payment_recommendation = "Cash" ∧
      (generateFallbackAnalysis s cost risk).recommended_action
        = "Proceed with purchase if needed") ∧
    (((riskThreshold risk : ℚ) : WithTop ℚ)
        < (generateFallbackAnalysis s cost risk).asset_to_savings →
      (generateFallbackAnalysis s cost risk).payment_recommendation = "Installments" ∧
      (generateFallbackAnalysis s cost risk).recommended_action
        = "Consider saving more before purchase") ∧
    ((generateFallbackAnalysis s cost risk).asset_to_savings
        = ((riskThreshold risk : ℚ) : WithTop ℚ) →
      (generateFallbackAnalysis s cost risk).payment_recommendation = "Installments" ∧
      (generateFallbackAnalysis s cost risk).recommended_action
        = "Proceed with purchase if needed") := by
  refine ⟨fun hlt => ⟨?_, ?_⟩, fun hgt => ⟨?_, ?_⟩, fun heq => ⟨?_, ?_⟩⟩
  · rw [fallback_payment_eq, if_pos hlt]
  · rw [fallback_action_eq, if_neg (lt_asymm hlt)]
  · rw [fallback_payment_eq, if_neg (lt_asymm hgt)]
  · rw [fallback_action_eq, if_pos hgt]
  · rw [fallback_payment_eq, if_neg (by rw [heq]; exact lt_irrefl _)]
  · rw [fallback_action_eq, if_neg (by rw [heq]; exact lt_irrefl _)]

/-- Witness for C3_amended: the below-threshold conjunct at savings 10000,
cost 4000, risk tolerance 9 (ratio 0.4 below threshold 0.7). -/
theorem C3_amended_witness :
    (generateFallbackAnalysis ⟨5000, 10000, 0, [("2024-January", [("Housing", 3000)])]⟩
      4000 9).payment_recommendation = "Cash" ∧
    (generateFallbackAnalysis ⟨5000, 10000, 0, [("2024-January", [("Housing", 3000)])]⟩
      4000 9).recommended_action = "Proceed with purchase if needed" :=
  (C3_amended ⟨5000, 10000, 0, [("2024-January", [("Housing", 3000)])]⟩ 4000 9).1
    (by norm_num [generateFallbackAnalysis, avgExpenses, periodTotal, riskThreshold])

/-- C7: for income 5000, one expense period totalling 3000, savings 10000,
debt 0, asset cost 4000 and risk tolerance 9, the fallback produces monthly
surplus 2000, asset-to-savings 0.4, payment recommendation "Cash" and the
proceed-if-needed action. -/
theorem C7_fallback_example :
    (generateFallbackAnalysis ⟨5000, 10000, 0, [("2024-January", [("Housing", 3000)])]⟩
      4000 9).monthly_surplus = 2000 ∧
    (generateFallbackAnalysis ⟨5000, 10000, 0, [("2024-January", [("Housing", 3000)])]⟩
      4000 9).asset_to_savings = ((0.4 : ℚ) : WithTop ℚ) ∧
    (generateFallbackAnalysis ⟨5000, 10000, 0, [("2024-January", [("Housing", 3000)])]⟩
      4000 9).payment_recommendation = "Cash" ∧
    (generateFallbackAnalysis ⟨5000, 10000, 0, [("2024-January", [("Housing", 3000)])]⟩
      4000 9).recommended_action = "Proceed with purchase if needed" := by
  norm_num [generateFallbackAnalysis, avgExpenses, periodTotal]

/-- Monthly interest of the balanced repayment schedule,
`remaining_debt * 0.1 / 12`. -/
def repayInterest (debt : ℚ) : ℚ := debt * 0.1 / 12

/-- One iteration of the repayment loop body: the principal is
`min(monthly_payment - interest, remaining_debt)` and is subtracted from
the remaining debt. -/
def repayStep (payment debt : ℚ) : ℚ :=
  debt - min (payment - repayInterest debt) debt

/-- The repayment `while remaining_debt > 0` loop with explicit fuel:
`none` means the loop was still running when the fuel ran out, `some d`
means the loop exited with remaining debt `d`. -/
def repayRun (payment : ℚ) : ℕ → ℚ → Option ℚ
  | 0, debt => if 0 < debt then none else some debt
  | n + 1, debt =>
    if 0 < debt then repayRun payment n (repayStep payment debt) else some debt

/-- Balanced-strategy monthly payment, `monthly_surplus * 0.5`. -/
def balancedPayment (surplus : ℚ) : ℚ := surplus * 0.5

/-- The repayment loop terminates on the given payment and starting debt. -/
def repayTerminates (payment debt : ℚ) : Prop :=
  ∃ fuel r, repayRun payment fuel debt = some r

lemma repayRun_stuck (fuel : ℕ) :
    ∀ d : ℚ, 6000 ≤ d → repayRun (balancedPayment 100) fuel d = none := by
  have hpay : balancedPayment 100 = 50 := by norm_num [balancedPayment]
  induction fuel with
  | zero =>
    intro d hd
    rw [repayRun, if_pos (by linarith : (0 : ℚ) < d)]
  | succ n ih =>
    intro d hd
    rw [repayRun, if_pos (by linarith : (0 : ℚ) < d)]
    apply ih
    have hint : (50 : ℚ) ≤ repayInterest d := by
      unfold repayInterest; rw [le_div_iff₀ (by norm_num : (0 : ℚ) < 12)]; nlinarith
    have hmin : min (balancedPayment 100 - repayInterest d) d
        = balancedPayment 100 - repayInterest d := by
      apply min_eq_left; rw [hpay]; linarith
    rw [repayStep, hmin, hpay]
    linarith

/-- Claim C2 fails on the code: with current debt 100000 and monthly
surplus 100 the balanced payment is 50 while the first month of interest is
more than 833, so the remaining debt grows every month and the schedule
loop never terminates. -/
theorem C2_nontermination : ¬ repayTerminates (balancedPayment 100) 100000 := by
  rintro ⟨fuel, r, hr⟩
  rw [repayRun_stuck fuel 100000 (by norm_num)] at hr
  exact Option.noConfusion hr

/-- Flag for C4: the investment-compounding block of
`show_investment_calculator`. The future value of the initial amount is
`A * (1 + r) ^ T`; when the monthly contribution is positive the code adds
`C * ((1 + r) ^ T - 1) / r`, a division that raises `ZeroDivisionError`
when the monthly rate is zero, embedded here as `none`. -/
def investmentFV (A C r : ℚ) (T : ℕ) : Option ℚ :=
  let fv := A * (1 + r) ^ T
  if 0 < C then
    if r = 0 then none
    else some (fv + C * ((1 + r) ^ T - 1) / r)
  else some fv

/-- Claim C4 fails on the code: with monthly rate 0, a positive monthly
contribution 500, initial amount 10000 and a 120-month term the code
divides by the zero rate (a `ZeroDivisionError`) instead of returning the
linear sum 10000 + 500 * 120 = 70000 that the claim specifies. -/
theorem C4_division_by_zero :
    investmentFV 10000 500 0 120 = none ∧ (10000 : ℚ) + 500 * 120 = 70000 := by
  constructor
  · rfl
  · norm_num

/-- A JSON value, the shape of the parsed import file. -/
inductive JsonVal where
  | num (q : ℚ)
  | str (s : String)
  | arr (elems : List JsonVal)
  | obj (fields : List (String × JsonVal))

/-- Key lookup in a JSON object, the Python `key in d` / `d[key]` pair. -/
def jlookup (key : String) : List (String × JsonVal) → Option JsonVal
  | [] => none
  | (k, v) :: rest => if k = key then some v else jlookup key rest

/-- The session fields that `import_financial_data` writes. -/
structure SessionState where
  user_data : Option JsonVal
  monthly_expenses : Option JsonVal
  financial_data : Option JsonVal

/-- Outcome of an import: accepted, or rejected with a format error. -/
inductive ImportResult where
  | ok
  | formatError (msg : String)
deriving DecidableEq

/-- Import of a parsed JSON object, mirroring `import_financial_data`: when
either the "basic_info" or the "monthly_expenses" key is missing the
operation is rejected with a format error before any session field is
written; otherwise all three session fields are replaced, with the optional
"financial_analysis" value defaulting to an empty object. -/
def importFinancialData (st : SessionState) (data : List (String × JsonVal)) :
    SessionState × ImportResult :=
  match jlookup "basic_info" data, jlookup "monthly_expenses" data with
  | some b, some m =>
    ({ user_data := some b
       monthly_expenses := some m
       financial_data := some (JsonVal.obj [("basic_info", b), ("monthly_expenses", m),
         ("analysis", (jlookup "financial_analysis" data).getD (JsonVal.obj []))]) },
     ImportResult.ok)
  | _, _ =>
    (st, ImportResult.formatError
      "Invalid data format. The file must contain basic financial information and monthly expenses.")

/-- C8: import succeeds exactly when both the "basic_info" and the
"monthly_expenses" keys are present; when either is missing the operation
is rejected with a format error and the stored user data, monthly expenses
and financial data are all left unchanged. -/
theorem C8_import_validation (st : SessionState) (data : List (String × JsonVal)) :
    ((importFinancialData st data).2 = ImportResult.ok ↔
      (jlookup "basic_info" data).isSome ∧ (jlookup "monthly_expenses" data).isSome) ∧
    (¬ ((jlookup "basic_info" data).isSome ∧ (jlookup "monthly_expenses" data).isSome) →
      (∃ msg, (importFinancialData st data).2 = ImportResult.formatError msg) ∧
      (importFinancialData st data).1 = st) := by
  unfold importFinancialData
  rcases hb : jlookup "basic_info" data with _ | b <;>
    rcases hm : jlookup "monthly_expenses" data with _ | m <;>
      simp [hb, hm]

/-- Witness for C8 at a concrete state and an import object that has
"basic_info" but no "monthly_expenses" key: the import is rejected with a
format error and the state is unchanged. -/
theorem C8_witness :
    (∃ msg, (importFinancialData ⟨none, none, none⟩
      [("basic_info", JsonVal.obj [])]).2 = ImportResult.formatError msg) ∧
    (importFinancialData ⟨none, none, none⟩
      [("basic_info", JsonVal.obj [])]).1 = (⟨none, none, none⟩ : SessionState) :=
  (C8_import_validation ⟨none, none, none⟩ [("basic_info", JsonVal.obj [])]).2
    (by simp [jlookup])

/-- Comparison used to rank category totals: `a` sorts no later than `b`
when the amount of `b` is at most the amount of `a` (descending by amount,
stable for equal amounts, exactly Python `sorted(key=amount, reverse=True)`). -/
def amountGE (a b : String × ℚ) : Prop := b.2 ≤ a.2

instance : DecidableRel amountGE :=
  fun a b => inferInstanceAs (Decidable (b.2 ≤ a.2))

instance : IsTotal (String × ℚ) amountGE :=
  ⟨fun a b => le_total b.2 a.2⟩

instance : IsTrans (String × ℚ) amountGE :=
  ⟨fun _ _ _ h1 h2 => le_trans h2 h1⟩

/-- Insertion-ordered accumulation of one category amount into the totals,
the Python `category_totals[category] += amount` on a dict that keeps
first-seen key order. -/
def addToTotals : List (String × ℚ) → String → ℚ → List (String × ℚ)
  | [], c, a => [(c, a)]
  | (k, v) :: rest, c, a =>
    if k = c then (k, v + a) :: rest else (k, v) :: addToTotals rest c a

/-- Per-category totals of a monthly-expense mapping, accumulated in period
order and, inside one period, in category order — so the key order of the
result is the first-seen order of the categories. -/
def categoryTotals (m : List (String × List (String × ℚ))) : List (String × ℚ) :=
  m.foldl (fun acc p => p.2.foldl (fun acc2 ce => addToTotals acc2 ce.1 ce.2) acc) []

/-- Top-5 expense categories: the totals sorted by amount descending with a
stable sort, truncated to five entries. -/
def topCategories (m : List (String × List (String × ℚ))) : List (String × ℚ) :=
  (List.insertionSort amountGE (categoryTotals m)).take 5

lemma sorted_perm_eq_of_nodup_amounts (u : List (String × ℚ)) :
    ∀ v, u.Perm v → List.Sorted amountGE u → List.Sorted amountGE v →
      (u.map Prod.snd).Nodup → u = v := by
  induction u with
  | nil =>
    intro v hperm _ _ _
    exact hperm.nil_eq
  | cons x u ih =>
    intro v hperm hsu hsv hnd
    cases v with
    | nil => exact absurd hperm.symm (by simp)
    | cons y v =>
      have hyu : y ∈ x :: u := hperm.symm.mem_iff.mp (List.mem_cons_self y v)
      have hxv : x ∈ y :: v := hperm.mem_iff.mp (List.mem_cons_self x u)
      have hsu' := List.sorted_cons.mp hsu
      have hsv' := List.sorted_cons.mp hsv
      have hxy2 : x.2 = y.2 := by
        rcases List.mem_cons.mp hxv with h | h
        · rw [h]
        · rcases List.mem_cons.mp hyu with h2 | h2
          · rw [h2]
          · exact le_antisymm (hsv'.1 x h) (hsu'.1 y h2)
      have hxy : y = x := by
        rcases List.mem_cons.mp hyu with h2 | h2
        · exact h2
        · exfalso
          have hy2 : y.2 ∈ u.map Prod.snd := List.mem_map_of_mem Prod.snd h2
          have hx2 : x.2 ∉ u.map Prod.snd := by

            rw [List.map_cons] at hnd
            exact (List.nodup_cons.mp hnd).1
          rw [← hxy2] at hy2
          exact hx2 hy2
      subst hxy
      have htail : u.Perm v := hperm.cons_inv
      have hndu : (u.map Prod.snd).Nodup := by
        rw [List.map_cons] at hnd
        exact (List.nodup_cons.mp hnd).2
      rw [ih v htail hsu'.2 hsv'.2 hndu]

/-- Counterexample to C9: two one-period mappings whose per-category totals
are re-orderings of each other (categories A and B both total 10), yet the
top-5 lists differ — with a tie, the order follows the first-seen category
order, which re-ordering the input changes. -/
theorem C9_counterexample :
    (categoryTotals [("2024-01", [("A", (10 : ℚ)), ("B", 10)])]).Perm
      (categoryTotals [("2024-01", [("B", (10 : ℚ)), ("A", 10)])]) ∧
    topCategories [("2024-01", [("A", (10 : ℚ)), ("B", 10)])] ≠
      topCategories [("2024-01", [("B", (10 : ℚ)), ("A", 10)])] := by
  constructor
  · exact List.Perm.swap ("B", 10) ("A", 10) []
  · decide

/-- Amended C9: the top-5 list is identical for two inputs whose category
totals are re-orderings of each other, provided no two categories have
equal totals; with ties the order instead follows first-seen category
order. -/
theorem C9_top5_stable (m1 m2 : List (String × List (String × ℚ)))
    (hperm : (categoryTotals m1).Perm (categoryTotals m2))
    (hnd : ((categoryTotals m1).map Prod.snd).Nodup) :
    topCategories m1 = topCategories m2 := by
  unfold topCategories
  congr 1
  apply sorted_perm_eq_of_nodup_amounts
  · exact (List.perm_insertionSort amountGE _).trans
      (hperm.trans (List.perm_insertionSort amountGE _).symm)
  · exact List.sorted_insertionSort amountGE _
  · exact List.sorted_insertionSort amountGE _
  · exact (((List.perm_insertionSort amountGE _).map Prod.snd).nodup_iff).mpr hnd

/-- Witness for C9_top5_stable at two concrete mappings with distinct
totals (A totals 10, B totals 5) given in different orders. -/
theorem C9_witness :
    topCategories [("2024-01", [("A", (10 : ℚ)), ("B", 5)])] =
      topCategories [("2024-01", [("B", (5 : ℚ)), ("A", 10)])] :=
  C9_top5_stable [("2024-01", [("A", (10 : ℚ)), ("B", 5)])]
    [("2024-01", [("B", (5 : ℚ)), ("A", 10)])]
    (List.Perm.swap ("B", 5) ("A", 10) []) (by decide)

end FinTwin
